import Mathlib

/-!
Verification of `study/demo_01_pdf_parsing.py` (RAG-Challenge-2).

The script is a linear, single-pass orchestration: it provisions Docling
model assets, resolves a hardcoded input/output path pair, delegates to an
external `PDFParser.parse_and_export` call, and reads back and prints a
snippet of the produced JSON file.

We embed it shallowly: every interaction with the outside world (the
`Pipeline.download_docling_models()` call, filesystem existence checks,
directory listings, the parse call, and the `open`/`json.load` of the output
file) is an input, collected in a `World` record.  Running `main` on a
`World` produces a deterministic trace of observable events (console prints
and the script's own filesystem / library calls) together with the
exception, if any, that propagates out of `main`.  Since every exception the
script can encounter is caught by one of its handlers, the propagated
exception is `none` on every path of the translation.
-/

namespace Demo01

/-- JSON values as produced by Python's `json.load`: `None`, booleans,
numbers (the demo only ever displays them; we model the integral case),
strings, arrays, and objects.  An object is the insertion-ordered key/value
list of the Python `dict`; `json.load` returns `dict`s with unique keys. -/
inductive Json where
  | null
  | bool (b : Bool)
  | num (n : Int)
  | str (s : String)
  | arr (xs : List Json)
  | obj (kvs : List (String × Json))

/-- A run of `n` spaces, as used by `json.dumps` indentation. -/
def spaces (n : Nat) : String := String.mk (List.replicate n ' ')

/-- Lowercase hexadecimal digit, as in Python's `%x` formatting. -/
def hexDigitChar (n : Nat) : Char :=
  if n < 10 then Char.ofNat (48 + n) else Char.ofNat (87 + n)

/-- Two lowercase hex digits (Python `\xXX` escapes). -/
def hex2 (n : Nat) : String :=
  String.mk [hexDigitChar (n / 16 % 16), hexDigitChar (n % 16)]

/-- Four lowercase hex digits (Python `\uXXXX` escapes). -/
def hex4 (n : Nat) : String :=
  String.mk [hexDigitChar (n / 4096 % 16), hexDigitChar (n / 256 % 16),
             hexDigitChar (n / 16 % 16), hexDigitChar (n % 16)]

/-- Escaping of one character by `json.dumps` with its default
`ensure_ascii=True`: backslash, double quote and the five short control
escapes are written with a backslash; every other character outside
`0x20..0x7e` becomes `\uXXXX`, using a UTF-16 surrogate pair above
`0xffff`; the remaining ASCII characters stand for themselves. -/
def jsonEscapeChar (c : Char) : String :=
  let n := c.toNat
  if n = 34 then "\\\""
  else if n = 92 then "\\\\"
  else if n = 8 then "\\b"
  else if n = 12 then "\\f"
  else if n = 10 then "\\n"
  else if n = 13 then "\\r"
  else if n = 9 then "\\t"
  else if n < 32 ∨ n > 126 then
    if n ≤ 65535 then "\\u" ++ hex4 n
    else
      let m := n - 65536
      "\\u" ++ hex4 (55296 + m / 1024) ++ "\\u" ++ hex4 (56320 + m % 1024)
  else String.singleton c

/-- A JSON string literal as serialized by `json.dumps`. -/
def jsonDumpStr (s : String) : String :=
  "\"" ++ String.join (s.toList.map jsonEscapeChar) ++ "\""

/-- Escaping of one character inside a Python `repr` of a string, where `q`
is the chosen quote character: backslash and the quote are escaped, newline,
carriage return and tab use their short escapes, other non-printable
characters (ASCII control characters and the `0x7f..0xa0` range) become
`\xXX`; everything else stands for itself. -/
def pyReprEscapeChar (q : Char) (c : Char) : String :=
  let n := c.toNat
  if n = 92 then "\\\\"
  else if c = q then "\\" ++ String.singleton q
  else if n = 10 then "\\n"
  else if n = 13 then "\\r"
  else if n = 9 then "\\t"
  else if n < 32 ∨ (127 ≤ n ∧ n ≤ 160) then "\\x" ++ hex2 n
  else String.singleton c

/-- Python `repr` of a string: single-quoted, except that a string that
contains a single quote and no double quote is double-quoted. -/
def pyStrRepr (s : String) : String :=
  let useDouble := s.toList.contains (Char.ofNat 39) && !(s.toList.contains (Char.ofNat 34))
  let q := if useDouble then Char.ofNat 34 else Char.ofNat 39
  String.singleton q ++ String.join (s.toList.map (pyReprEscapeChar q)) ++ String.singleton q

mutual

/-- Python `json.dumps(v, indent=2)` where `ind` is the indentation level of
the surrounding context (the top-level call has `ind = 0`).  With an indent,
`json.dumps` separates items with `",\n"`, keys from values with `": "`, and
indents each element by two more spaces than its container. -/
def dumpsJ (ind : Nat) : Json → String
  | .null => "null"
  | .bool true => "true"
  | .bool false => "false"
  | .num n => toString n
  | .str s => jsonDumpStr s
  | .arr [] => "[]"
  | .arr (x :: xs) =>
      "[\n" ++ dumpsArr (ind + 2) (x :: xs) ++ "\n" ++ spaces ind ++ "]"
  | .obj [] => "\x7b\x7d"
  | .obj (kv :: kvs) =>
      "\x7b\n" ++ dumpsObj (ind + 2) (kv :: kvs) ++ "\n" ++ spaces ind ++ "\x7d"

/-- Array items of `json.dumps(·, indent=2)`, each on its own line at
indentation `ind`, separated by commas. -/
def dumpsArr (ind : Nat) : List Json → String
  | [] => ""
  | [x] => spaces ind ++ dumpsJ ind x
  | x :: y :: xs => spaces ind ++ dumpsJ ind x ++ ",\n" ++ dumpsArr ind (y :: xs)

/-- Object entries of `json.dumps(·, indent=2)`, each `"key": value` on its
own line at indentation `ind`, separated by commas. -/
def dumpsObj (ind : Nat) : List (String × Json) → String
  | [] => ""
  | [kv] => spaces ind ++ jsonDumpStr kv.1 ++ ": " ++ dumpsJ ind kv.2
  | kv :: kw :: kvs =>
      spaces ind ++ jsonDumpStr kv.1 ++ ": " ++ dumpsJ ind kv.2 ++ ",\n" ++
        dumpsObj ind (kw :: kvs)

end

mutual

/-- Python `repr` of a value loaded from JSON: `None`, `True`/`False`,
decimal integers, quoted strings, and recursively rendered lists and dicts. -/
def pyRepr : Json → String
  | .null => "None"
  | .bool true => "True"
  | .bool false => "False"
  | .num n => toString n
  | .str s => pyStrRepr s
  | .arr [] => "[]"
  | .arr (x :: xs) => "[" ++ pyReprArr (x :: xs) ++ "]"
  | .obj [] => "\x7b\x7d"
  | .obj (kv :: kvs) => "\x7b" ++ pyReprObj (kv :: kvs) ++ "\x7d"

/-- Comma-separated `repr`s of list elements. -/
def pyReprArr : List Json → String
  | [] => ""
  | [x] => pyRepr x
  | x :: y :: xs => pyRepr x ++ ", " ++ pyReprArr (y :: xs)

/-- Comma-separated `'key': value` entries of a dict `repr`. -/
def pyReprObj : List (String × Json) → String
  | [] => ""
  | [kv] => pyStrRepr kv.1 ++ ": " ++ pyRepr kv.2
  | kv :: kw :: kvs =>
      pyStrRepr kv.1 ++ ": " ++ pyRepr kv.2 ++ ", " ++ pyReprObj (kw :: kvs)

end

/-- Python `str` of a value loaded from JSON, as interpolated by an
f-string: a string stands for itself, everything else prints as its `repr`. -/
def pyStr : Json → String
  | .str s => s
  | .null => pyRepr .null
  | .bool b => pyRepr (.bool b)
  | .num n => pyRepr (.num n)
  | .arr xs => pyRepr (.arr xs)
  | .obj kvs => pyRepr (.obj kvs)

/-- Python `repr` of a list of `pathlib.PosixPath` values, as produced by
interpolating `list(dir.iterdir())` into an f-string on a POSIX system. -/
def reprPathList (ps : List String) : String :=
  "[" ++ String.intercalate ", " (ps.map (fun p => "PosixPath(" ++ pyStrRepr p ++ ")")) ++ "]"

/-- Is `pat` a contiguous sublist of `s`?  (Python's `k in str` test.) -/
def listSub (pat : List Char) : List Char → Bool
  | [] => pat.isEmpty
  | c :: rest => pat.isPrefixOf (c :: rest) || listSub pat rest

/-- Does the loaded value `.str s` equal the Python string `k`?  Python `==`
between a string and a non-string JSON value is `False`. -/
def isStrEq (k : String) : Json → Bool
  | .str s => s = k
  | _ => false

/-- First value bound to key `k` in an object's entry list (a `dict` from
`json.load` has unique keys, so this is the dict lookup). -/
def lookupJson (k : String) : List (String × Json) → Option Json
  | [] => none
  | kv :: kvs => if kv.1 = k then some kv.2 else lookupJson k kvs

/-- Python's `k in v` (line 104, `'metainfo' in parsed_data`): key test on a
dict, element test on a list, substring test on a string; on any other
value `in` raises a `TypeError`, modelled as `.error` with its message. -/
def pyContains (k : String) : Json → Except String Bool
  | .obj kvs => .ok (lookupJson k kvs).isSome
  | .arr xs => .ok (xs.any (isStrEq k))
  | .str s => .ok (listSub k.toList s.toList)
  | .num _ => .error "argument of type 'int' is not iterable"
  | .bool _ => .error "argument of type 'bool' is not iterable"
  | .null => .error "argument of type 'NoneType' is not iterable"

/-- Python's `v[k]` with a string key (line 106, `parsed_data['metainfo']`):
dict lookup; every other value raises, modelled as `.error`. -/
def pyIndex (k : String) : Json → Except String Json
  | .obj kvs =>
      match lookupJson k kvs with
      | some v => .ok v
      | none => .error ("KeyError: " ++ pyStrRepr k)
  | .arr _ => .error "list indices must be integers or slices, not str"
  | .str _ => .error "string indices must be integers, not 'str'"
  | .num _ => .error "'int' object is not subscriptable"
  | .bool _ => .error "'bool' object is not subscriptable"
  | .null => .error "'NoneType' object is not subscriptable"

/-- Python's `v.items()` (line 106): the entry list of a dict; every other
value raises an `AttributeError`, modelled as `.error`. -/
def pyItems : Json → Except String (List (String × Json))
  | .obj kvs => .ok kvs
  | .arr _ => .error "'list' object has no attribute 'items'"
  | .str _ => .error "'str' object has no attribute 'items'"
  | .num _ => .error "'int' object has no attribute 'items'"
  | .bool _ => .error "'bool' object has no attribute 'items'"
  | .null => .error "'NoneType' object has no attribute 'items'"

/-- The hardcoded input file name (line 39). -/
def sample_pdf_filename : String := "194000c9109c6fa628f1fed33b44ae4c2b8365f4.pdf"

/-- The hardcoded input path `data/test_set/pdf_reports/<filename>` (line 40). -/
def sample_pdf_path : String := "data/test_set/pdf_reports/" ++ sample_pdf_filename

/-- `sample_pdf_path.parent`, the directory listed in the missing-input
diagnostics (lines 60-63). -/
def input_parent : String := "data/test_set/pdf_reports"

/-- The hardcoded output directory (line 43). -/
def output_dir : String := "study/parsed_output"

/-- The expected output path `output_dir / (sample_pdf_filename + ".json")`
(line 48): the full input file name, `.pdf` included, with `.json` appended. -/
def output_json_path : String := output_dir ++ "/" ++ sample_pdf_filename ++ ".json"

/-- Observable actions of one run: console prints, the script's own
directory creation (with its `parents` / `exist_ok` flags), its existence
check of the input path, the `PDFParser(output_dir=...)` construction, and
the delegated `parse_and_export(input_doc_paths=...)` call. -/
inductive Event where
  | print (s : String)
  | mkdir (dir : String) (parents existOk : Bool)
  | checkInput (path : String)
  | constructParser (outputDir : String)
  | parseAndExport (paths : List String)
deriving DecidableEq

/-- Outcome of `open(output_json_path)` followed by `json.load` (lines
99-100), an input of the run: the loaded value, a `json.JSONDecodeError`, or
any other exception (e.g. an I/O error) with its message. -/
inductive ReadOutcome where
  | ok (j : Json)
  | decodeError
  | otherError (msg : String)

/-- The external environment of one run: the outcome of every call the
script makes into the filesystem and the external library.  Fields are only
consulted on the control-flow paths that reach the corresponding call. -/
structure World where
  /-- Outcome of `Pipeline.download_docling_models()` (line 30): `.error e`
  models the call raising an exception whose display is `e`. -/
  downloadResult : Except String Unit
  /-- `sample_pdf_path.exists()` (line 54). -/
  inputExists : Bool
  /-- `str(sample_pdf_path.resolve())` (line 58). -/
  inputResolved : String
  /-- `list(sample_pdf_path.parent.iterdir())` when the parent directory
  exists, `none` when it does not (lines 60-63). -/
  parentListing : Option (List String)
  /-- Outcome of `pdf_parser.parse_and_export(...)` (line 87): `.error e`
  models the call raising an exception whose display is `e`. -/
  parseResult : Except String Unit
  /-- `output_json_path.exists()` after the parse call (line 96). -/
  outputExists : Bool
  /-- Outcome of opening and `json.load`-ing the output file (lines 99-100). -/
  readOutcome : ReadOutcome
  /-- `str(output_json_path.resolve())` (line 124). -/
  outputResolved : String
  /-- `output_dir.exists()` in the missing-output branch (line 125). -/
  outputDirExists : Bool
  /-- `list(output_dir.iterdir())` in the missing-output branch (line 126). -/
  outputDirListing : List String

/-- Result of running `main`: the event trace, and the exception propagated
out of `main` (`none` when `main` returns normally). -/
structure MainRun where
  events : List Event
  raised : Option String
deriving DecidableEq

/-- The body of the `try` at lines 98-113 after a successful `json.load`
returning `j`: the snippet banner, then either the metainfo listing or the
500-character dump.  Returns the prints that happen, and the exception (if
any) escaping to the `except` clauses of lines 115-119.  Python evaluates
`'metainfo' in parsed_data` before printing `Metainfo:`, and
`parsed_data['metainfo'].items()` after it. -/
def snippetRun (j : Json) : List Event × Option String :=
  let hdr : List Event := [Event.print "\n--- Snippet of Parsed JSON Output ---"]
  match pyContains "metainfo" j with
  | .error e => (hdr, some e)
  | .ok true =>
      match (pyIndex "metainfo" j).bind pyItems with
      | .error e => (hdr ++ [Event.print "Metainfo:"], some e)
      | .ok items =>
          (hdr ++ [Event.print "Metainfo:"]
               ++ items.map (fun kv => Event.print ("  " ++ kv.1 ++ ": " ++ pyStr kv.2))
               ++ [Event.print "------------------------------------"], none)
  | .ok false =>
      (hdr ++ [Event.print "Printing the first 500 characters of the JSON output:",
               Event.print ((dumpsJ 0 j).take 500 ++ "..."),
               Event.print "------------------------------------"], none)

/-- The `main()` function of `study/demo_01_pdf_parsing.py`, line by line:
model download guarded by `try`/`except`, path setup and
`mkdir(parents=True, exist_ok=True)`, input existence check with
diagnostics, `PDFParser` construction, the guarded `parse_and_export` call,
and output verification with its guarded JSON read-back.  Every `except`
clause prints and falls through or returns, so `raised` is `none` in every
branch. -/
def main (w : World) : MainRun :=
  let events0 : List Event :=
    [Event.print "Starting PDF parsing demo...",
     Event.print "Checking and downloading Docling models if necessary..."]
  match w.downloadResult with
  | .error e =>
      ⟨events0 ++
        [Event.print ("Error downloading or verifying Docling models: " ++ e),
         Event.print "Please check your internet connection and model download path configuration."],
       none⟩
  | .ok _ =>
    let events1 := events0 ++
      [Event.print "Docling models are ready.",
       Event.mkdir output_dir true true,
       Event.print ("Input PDF: " ++ sample_pdf_path),
       Event.print ("Output JSON will be saved to: " ++ output_json_path),
       Event.checkInput sample_pdf_path]
    if w.inputExists then
      let events2 := events1 ++
        [Event.print ("Initializing PDFParser with output directory: " ++ output_dir ++ "..."),
         Event.constructParser output_dir,
         Event.print ("Parsing PDF: " ++ sample_pdf_path ++ "..."),
         Event.parseAndExport [sample_pdf_path]]
      match w.parseResult with
      | .error e =>
          ⟨events2 ++
            [Event.print ("Error during PDF parsing or export: " ++ e),
             Event.print "This could be due to issues with the PDF file, model incompatibilities, or resource limits."],
           none⟩
      | .ok _ =>
        let events3 := events2 ++ [Event.print "PDF parsing and export process initiated."]
        if w.outputExists then
          let events4 := events3 ++
            [Event.print ("\nSuccessfully parsed and exported. Output JSON available at: " ++ output_json_path)]
          match w.readOutcome with
          | .decodeError =>
              ⟨events4 ++
                [Event.print ("Error: Could not decode the JSON file at " ++ output_json_path ++ "."),
                 Event.print "The file might be corrupted or not a valid JSON."],
               none⟩
          | .otherError e =>
              ⟨events4 ++
                [Event.print ("An error occurred while reading or printing the JSON output: " ++ e)],
               none⟩
          | .ok j =>
              let snip := snippetRun j
              ⟨events4 ++ snip.1 ++
                (match snip.2 with
                 | some e =>
                     [Event.print ("An error occurred while reading or printing the JSON output: " ++ e)]
                 | none => []),
               none⟩
        else
          ⟨events3 ++
            [Event.print ("\nError: Output JSON file not found at " ++ output_json_path ++ "."),
             Event.print "The parsing process may have failed to produce an output.",
             Event.print "Please check logs or errors from the PDFParser execution.",
             Event.print ("Expected output file: " ++ w.outputResolved)] ++
            (if w.outputDirExists then
               [Event.print ("Contents of output directory '" ++ output_dir ++ "': " ++
                  reprPathList w.outputDirListing)]
             else
               [Event.print ("Output directory '" ++ output_dir ++ "' does not exist.")]),
           none⟩
    else
      ⟨events1 ++
        [Event.print ("Error: Sample PDF file not found at " ++ sample_pdf_path),
         Event.print "Please ensure the data is available in the 'data/test_set/pdf_reports/' directory.",
         Event.print ("Absolute path checked: " ++ w.inputResolved)] ++
        (match w.parentListing with
         | some ps =>
             [Event.print ("Files in '" ++ input_parent ++ "': " ++ reprPathList (ps.take 5))]
         | none =>
             [Event.print ("Directory '" ++ input_parent ++ "' does not exist.")]),
       none⟩

/-- The module entry `if __name__ == "__main__": main()` (lines 131-132):
running the file as a script just runs `main`. -/
def script (w : World) : MainRun := main w

/-- The process exit code: `0` when `main` returns normally, nonzero when an
exception propagates out of it. -/
def exitCode (r : MainRun) : Nat :=
  match r.raised with
  | none => 0
  | some _ => 1


/-- Every branch of `main` ends in a normal `return`: no exception
propagates out of it. -/
theorem main_returns_normally (w : World) : (main w).raised = none := by
  obtain ⟨d, i, ir, pl, pr, oe, ro, odr, ode, odl⟩ := w
  cases d <;> cases i <;> cases pr <;> cases oe <;> cases ro <;> simp [main]

/-- Every event of the JSON-snippet block is a console print. -/
theorem snippetRun_only_prints (j : Json) :
    ∀ e ∈ (snippetRun j).1, ∃ s, e = Event.print s := by
  intro e he
  unfold snippetRun at he
  split at he
  · simp at he; exact ⟨_, he⟩
  · split at he
    · simp at he
      rcases he with he | he <;> exact ⟨_, he⟩
    · simp [List.mem_append, List.mem_map] at he
      rcases he with he | he | ⟨a, b, _, he⟩ | he
      · exact ⟨_, he⟩
      · exact ⟨_, he⟩
      · exact ⟨_, he.symm⟩
      · exact ⟨_, he⟩
  · simp at he
    rcases he with he | he | he | he <;> exact ⟨_, he⟩

/-- C1: with models provisioned but the input PDF absent, `main` prints the
file-not-found message and the directory diagnostics (the parent listing
when the parent exists, its absence otherwise) and returns without ever
calling `parse_and_export` or constructing a `PDFParser`. -/
theorem missing_input_aborts_without_parsing (w : World)
    (hd : w.downloadResult = Except.ok ()) (hi : w.inputExists = false) :
    Event.print ("Error: Sample PDF file not found at " ++ sample_pdf_path) ∈ (main w).events ∧
    (∀ ps, Event.parseAndExport ps ∉ (main w).events) ∧
    (∀ d, Event.constructParser d ∉ (main w).events) ∧
    (∀ ps, w.parentListing = some ps →
      Event.print ("Files in '" ++ input_parent ++ "': " ++ reprPathList (ps.take 5)) ∈
        (main w).events) ∧
    (w.parentListing = none →
      Event.print ("Directory '" ++ input_parent ++ "' does not exist.") ∈ (main w).events) ∧
    (main w).raised = none := by
  refine ⟨?_, ?_, ?_, ?_, ?_, main_returns_normally w⟩
  · rcases hpl : w.parentListing with _ | ps <;> simp [main, hd, hi, hpl]
  · intro ps
    rcases hpl : w.parentListing with _ | ps' <;> simp [main, hd, hi, hpl]
  · intro d
    rcases hpl : w.parentListing with _ | ps' <;> simp [main, hd, hi, hpl]
  · intro ps hpl
    simp [main, hd, hi, hpl]
  · intro hpl
    simp [main, hd, hi, hpl]

/-- Witness world for C1: models ready, input PDF missing, parent directory
present with one stray file. -/
def wMissingInput : World :=
  ⟨Except.ok (), false, "/repo/data/test_set/pdf_reports/194000c9109c6fa628f1fed33b44ae4c2b8365f4.pdf",
   some ["data/test_set/pdf_reports/other.pdf"], Except.ok (), false,
   ReadOutcome.decodeError, "/repo/study/parsed_output/x.json", false, []⟩

/-- Witness for C1 at `wMissingInput`. -/
theorem missing_input_aborts_without_parsing_witness :
    wMissingInput.downloadResult = Except.ok () ∧ wMissingInput.inputExists = false ∧
    Event.print ("Error: Sample PDF file not found at " ++ sample_pdf_path) ∈
      (main wMissingInput).events ∧
    Event.parseAndExport [sample_pdf_path] ∉ (main wMissingInput).events :=
  ⟨rfl, rfl, (missing_input_aborts_without_parsing wMissingInput rfl rfl).1,
   (missing_input_aborts_without_parsing wMissingInput rfl rfl).2.1 [sample_pdf_path]⟩

/-- C2: when `Pipeline.download_docling_models()` raises, `main` prints the
two error lines and returns at once: the whole trace is the four prints, so
no directory is created and the input path is never checked. -/
theorem download_failure_stops_run (w : World) (e : String)
    (hd : w.downloadResult = Except.error e) :
    (main w).events =
      [Event.print "Starting PDF parsing demo...",
       Event.print "Checking and downloading Docling models if necessary...",
       Event.print ("Error downloading or verifying Docling models: " ++ e),
       Event.print "Please check your internet connection and model download path configuration."] ∧
    (∀ d p q, Event.mkdir d p q ∉ (main w).events) ∧
    (∀ p, Event.checkInput p ∉ (main w).events) ∧
    (main w).raised = none := by
  refine ⟨?_, ?_, ?_, main_returns_normally w⟩
  · simp [main, hd]
  · intro d p q; simp [main, hd]
  · intro p; simp [main, hd]

/-- Witness world for C2: the model download raises. -/
def wDownloadFail : World :=
  ⟨Except.error "simulated network failure", true, "/repo/in.pdf", some [],
   Except.ok (), true, ReadOutcome.ok Json.null, "/repo/out.json", true, []⟩

/-- Witness for C2 at `wDownloadFail`. -/
theorem download_failure_stops_run_witness :
    wDownloadFail.downloadResult = Except.error "simulated network failure" ∧
    (main wDownloadFail).events =
      [Event.print "Starting PDF parsing demo...",
       Event.print "Checking and downloading Docling models if necessary...",
       Event.print ("Error downloading or verifying Docling models: " ++ "simulated network failure"),
       Event.print "Please check your internet connection and model download path configuration."] :=
  ⟨rfl, (download_failure_stops_run wDownloadFail "simulated network failure" rfl).1⟩

/-- C3: on the success path, when the output file exists and `json.load`
yields a mapping whose `metainfo` key holds a mapping `m`, the script prints
one `  key: value` line for every pair of `m`. -/
theorem metainfo_pairs_all_printed (w : World) (kvs m : List (String × Json))
    (hd : w.downloadResult = Except.ok ()) (hi : w.inputExists = true)
    (hp : w.parseResult = Except.ok ()) (ho : w.outputExists = true)
    (hr : w.readOutcome = ReadOutcome.ok (Json.obj kvs))
    (hm : lookupJson "metainfo" kvs = some (Json.obj m)) :
    ∀ kv ∈ m, Event.print ("  " ++ kv.1 ++ ": " ++ pyStr kv.2) ∈ (main w).events := by
  intro kv hkv
  simp [main, hd, hi, hp, ho, hr, snippetRun, pyContains, hm, pyIndex, pyItems, Except.bind]
  exact Or.inr <| Or.inr <| Or.inr <| Or.inr <| Or.inr <| Or.inr <| Or.inr <| Or.inr <|
    Or.inr <| Or.inr <| Or.inr <| Or.inl ⟨kv.1, kv.2, by simpa using hkv, rfl⟩

/-- Witness world for C3: the output JSON is
`.obj [("metainfo", obj [(sha1_name, ...), (pages, 3)])]`. -/
def wMetainfo : World :=
  ⟨Except.ok (), true, "/repo/in.pdf", some [], Except.ok (), true,
   ReadOutcome.ok (Json.obj
     [("metainfo",
       Json.obj [("sha1_name", Json.str "194000c9109c6fa628f1fed33b44ae4c2b8365f4"),
                 ("pages_amount", Json.num 3)])]),
   "/repo/out.json", true, []⟩

/-- Witness for C3 at `wMetainfo`, for the pair `("pages_amount", 3)`. -/
theorem metainfo_pairs_all_printed_witness :
    wMetainfo.downloadResult = Except.ok () ∧ wMetainfo.inputExists = true ∧
    wMetainfo.parseResult = Except.ok () ∧ wMetainfo.outputExists = true ∧
    Event.print ("  " ++ "pages_amount" ++ ": " ++ pyStr (Json.num 3)) ∈
      (main wMetainfo).events :=
  ⟨rfl, rfl, rfl, rfl,
   metainfo_pairs_all_printed wMetainfo _ _ rfl rfl rfl rfl rfl rfl
     ("pages_amount", Json.num 3) (by simp)⟩

/-- C4: every handled failure kind — model-provisioning failure, missing
input file, parse/export exception, missing output file, malformed output
JSON — is reported only through console prints: `main` returns normally and
the process exit code is `0`, exactly as on success. -/
theorem failures_terminate_silently (w : World) :
    ((∃ e, w.downloadResult = Except.error e) →
      (main w).raised = none ∧ exitCode (script w) = 0) ∧
    (w.inputExists = false → (main w).raised = none ∧ exitCode (script w) = 0) ∧
    ((∃ e, w.parseResult = Except.error e) →
      (main w).raised = none ∧ exitCode (script w) = 0) ∧
    (w.outputExists = false → (main w).raised = none ∧ exitCode (script w) = 0) ∧
    (w.readOutcome = ReadOutcome.decodeError →
      (main w).raised = none ∧ exitCode (script w) = 0) := by
  have h : (main w).raised = none ∧ exitCode (script w) = 0 :=
    ⟨main_returns_normally w, by simp [exitCode, script, main_returns_normally w]⟩
  exact ⟨fun _ => h, fun _ => h, fun _ => h, fun _ => h, fun _ => h⟩

/-- Witness world for C4: the parse call raises. -/
def wParseFail : World :=
  ⟨Except.ok (), true, "/repo/in.pdf", some [], Except.error "CUDA out of memory",
   false, ReadOutcome.decodeError, "/repo/out.json", false, []⟩

/-- Witness for C4 at `wParseFail`, through its parse-failure conjunct. -/
theorem failures_terminate_silently_witness :
    wParseFail.parseResult = Except.error "CUDA out of memory" ∧
    (main wParseFail).raised = none ∧ exitCode (script wParseFail) = 0 :=
  ⟨rfl, (failures_terminate_silently wParseFail).2.2.1 ⟨"CUDA out of memory", rfl⟩⟩

/-- C5: when the output file exists but `json.load` raises a
`JSONDecodeError`, the script prints the decode-error message naming the
output path (and its follow-up line) and `main` returns normally. -/
theorem malformed_output_json_reported (w : World)
    (hd : w.downloadResult = Except.ok ()) (hi : w.inputExists = true)
    (hp : w.parseResult = Except.ok ()) (ho : w.outputExists = true)
    (hr : w.readOutcome = ReadOutcome.decodeError) :
    Event.print ("Error: Could not decode the JSON file at " ++ output_json_path ++ ".") ∈
      (main w).events ∧
    Event.print "The file might be corrupted or not a valid JSON." ∈ (main w).events ∧
    (main w).raised = none := by
  refine ⟨?_, ?_, main_returns_normally w⟩ <;> simp [main, hd, hi, hp, ho, hr]

/-- Witness world for C5: the output file holds malformed JSON. -/
def wDecodeErr : World :=
  ⟨Except.ok (), true, "/repo/in.pdf", some [], Except.ok (), true,
   ReadOutcome.decodeError, "/repo/out.json", true, []⟩

/-- Witness for C5 at `wDecodeErr`. -/
theorem malformed_output_json_reported_witness :
    wDecodeErr.readOutcome = ReadOutcome.decodeError ∧
    Event.print ("Error: Could not decode the JSON file at " ++ output_json_path ++ ".") ∈
      (main wDecodeErr).events ∧
    (main wDecodeErr).raised = none :=
  ⟨rfl, (malformed_output_json_reported wDecodeErr rfl rfl rfl rfl rfl).1,
   (malformed_output_json_reported wDecodeErr rfl rfl rfl rfl rfl).2.2⟩

/-- C6: when the parse call succeeds but the expected output file does not
exist, `main` prints the not-found message and then either the output
directory listing (when the directory exists) or the directory-absent
message, and returns normally. -/
theorem missing_output_diagnosed (w : World)
    (hd : w.downloadResult = Except.ok ()) (hi : w.inputExists = true)
    (hp : w.parseResult = Except.ok ()) (ho : w.outputExists = false) :
    Event.print ("\nError: Output JSON file not found at " ++ output_json_path ++ ".") ∈
      (main w).events ∧
    (w.outputDirExists = true →
      Event.print ("Contents of output directory '" ++ output_dir ++ "': " ++
        reprPathList w.outputDirListing) ∈ (main w).events) ∧
    (w.outputDirExists = false →
      Event.print ("Output directory '" ++ output_dir ++ "' does not exist.") ∈
        (main w).events) ∧
    (main w).raised = none := by
  refine ⟨?_, ?_, ?_, main_returns_normally w⟩
  · rcases hod : w.outputDirExists <;> simp [main, hd, hi, hp, ho, hod]
  · intro hod; simp [main, hd, hi, hp, ho, hod]
  · intro hod; simp [main, hd, hi, hp, ho, hod]

/-- Witness world for C6: no output file; the output directory exists and
holds one stray file. -/
def wMissingOutput : World :=
  ⟨Except.ok (), true, "/repo/in.pdf", some [], Except.ok (), false,
   ReadOutcome.decodeError, "/repo/study/parsed_output/194000c9109c6fa628f1fed33b44ae4c2b8365f4.pdf.json",
   true, ["study/parsed_output/debug.log"]⟩

/-- Witness for C6 at `wMissingOutput`. -/
theorem missing_output_diagnosed_witness :
    wMissingOutput.outputExists = false ∧ wMissingOutput.outputDirExists = true ∧
    Event.print ("\nError: Output JSON file not found at " ++ output_json_path ++ ".") ∈
      (main wMissingOutput).events ∧
    Event.print ("Contents of output directory '" ++ output_dir ++ "': " ++
      reprPathList wMissingOutput.outputDirListing) ∈ (main wMissingOutput).events :=
  ⟨rfl, rfl, (missing_output_diagnosed wMissingOutput rfl rfl rfl rfl).1,
   (missing_output_diagnosed wMissingOutput rfl rfl rfl rfl).2.1 rfl⟩

/-- The snippet block never performs a parse call. -/
theorem not_parseAndExport_snippet (j : Json) (ps : List String) :
    Event.parseAndExport ps ∉ (snippetRun j).1 := by
  intro h
  obtain ⟨s, hs⟩ := snippetRun_only_prints j _ h
  exact absurd hs (by simp)

/-- The generic-except report of lines 118-119 never performs a parse call. -/
theorem not_parseAndExport_generic (o : Option String) (ps : List String) :
    Event.parseAndExport ps ∉
      (match o with
       | some e =>
           [Event.print ("An error occurred while reading or printing the JSON output: " ++ e)]
       | none => ([] : List Event)) := by
  cases o <;> simp

/-- C7: the script's paths are fixed: the input is
`data/test_set/pdf_reports/194000c9109c6fa628f1fed33b44ae4c2b8365f4.pdf`,
the expected output is `study/parsed_output/<input filename>.json` (the
`.pdf` extension kept, `.json` appended), the output directory is created
with `parents=True, exist_ok=True` on every run that gets past model
provisioning, and the parse call receives exactly the fixed input path. -/
theorem fixed_paths_and_mkdir (w : World) (hd : w.downloadResult = Except.ok ()) :
    sample_pdf_path = "data/test_set/pdf_reports/194000c9109c6fa628f1fed33b44ae4c2b8365f4.pdf" ∧
    output_json_path = "study/parsed_output/194000c9109c6fa628f1fed33b44ae4c2b8365f4.pdf.json" ∧
    output_json_path = output_dir ++ "/" ++ sample_pdf_filename ++ ".json" ∧
    Event.mkdir output_dir true true ∈ (main w).events ∧
    Event.checkInput sample_pdf_path ∈ (main w).events ∧
    (∀ ps, Event.parseAndExport ps ∈ (main w).events → ps = [sample_pdf_path]) := by
  refine ⟨rfl, rfl, rfl, ?_, ?_, ?_⟩
  · obtain ⟨d, i, ir, pl, pr, oe, ro, odr, ode, odl⟩ := w
    cases hd
    cases i <;> cases pl <;> cases pr <;> cases oe <;> cases ro <;> simp [main]
  · obtain ⟨d, i, ir, pl, pr, oe, ro, odr, ode, odl⟩ := w
    cases hd
    cases i <;> cases pl <;> cases pr <;> cases oe <;> cases ro <;> simp [main]
  · intro ps hps
    obtain ⟨d, i, ir, pl, pr, oe, ro, odr, ode, odl⟩ := w
    cases hd
    cases i <;> cases pl <;> cases pr <;> cases oe <;> cases ode <;> cases ro <;>
      simp [main] at hps <;> (try exact hps) <;>
      (rcases hps with hps | hps | hps
       · exact hps
       · exact absurd hps (not_parseAndExport_snippet _ ps)
       · exact absurd hps (not_parseAndExport_generic _ ps))

/-- Witness world for C7: a fully successful run. -/
def wSuccess : World :=
  ⟨Except.ok (), true, "/repo/in.pdf", some [], Except.ok (), true,
   ReadOutcome.ok (Json.obj [("metainfo", Json.obj [])]), "/repo/out.json", true, []⟩

/-- Witness for C7 at `wSuccess`. -/
theorem fixed_paths_and_mkdir_witness :
    wSuccess.downloadResult = Except.ok () ∧
    output_json_path = "study/parsed_output/194000c9109c6fa628f1fed33b44ae4c2b8365f4.pdf.json" ∧
    Event.mkdir output_dir true true ∈ (main wSuccess).events ∧
    Event.checkInput sample_pdf_path ∈ (main wSuccess).events :=
  ⟨rfl, (fixed_paths_and_mkdir wSuccess rfl).2.1,
   (fixed_paths_and_mkdir wSuccess rfl).2.2.2.1,
   (fixed_paths_and_mkdir wSuccess rfl).2.2.2.2.1⟩

/-- C8: when the loaded output JSON is a mapping with no `metainfo` key, the
script prints the first 500 characters of `json.dumps(parsed_data,
indent=2)` followed by an ellipsis, instead of a metainfo listing. -/
theorem no_metainfo_prints_snippet (w : World) (kvs : List (String × Json))
    (hd : w.downloadResult = Except.ok ()) (hi : w.inputExists = true)
    (hp : w.parseResult = Except.ok ()) (ho : w.outputExists = true)
    (hr : w.readOutcome = ReadOutcome.ok (Json.obj kvs))
    (hm : lookupJson "metainfo" kvs = none) :
    Event.print ((dumpsJ 0 (Json.obj kvs)).take 500 ++ "...") ∈ (main w).events ∧
    snippetRun (Json.obj kvs) =
      ([Event.print "\n--- Snippet of Parsed JSON Output ---",
        Event.print "Printing the first 500 characters of the JSON output:",
        Event.print ((dumpsJ 0 (Json.obj kvs)).take 500 ++ "..."),
        Event.print "------------------------------------"], none) := by
  refine ⟨?_, ?_⟩ <;> simp [main, hd, hi, hp, ho, hr, snippetRun, pyContains, hm]

/-- Witness world for C8: the output JSON is `.obj [("content", [])]`,
with no `metainfo` key. -/
def wNoMetainfo : World :=
  ⟨Except.ok (), true, "/repo/in.pdf", some [], Except.ok (), true,
   ReadOutcome.ok (Json.obj [("content", Json.arr [])]), "/repo/out.json", true, []⟩

/-- Witness for C8 at `wNoMetainfo`. -/
theorem no_metainfo_prints_snippet_witness :
    wNoMetainfo.readOutcome = ReadOutcome.ok (Json.obj [("content", Json.arr [])]) ∧
    lookupJson "metainfo" [("content", Json.arr [])] = none ∧
    Event.print ((dumpsJ 0 (Json.obj [("content", Json.arr [])])).take 500 ++ "...") ∈
      (main wNoMetainfo).events :=
  ⟨rfl, rfl, (no_metainfo_prints_snippet wNoMetainfo _ rfl rfl rfl rfl rfl rfl).1⟩

/-- C9: whenever model provisioning succeeds, the `mkdir` of the output
directory is trace position 3 and the input-existence check is trace
position 6, so the directory is created before the input check; in
particular a run that aborts on a missing input file has already created
the output directory without ever parsing. -/
theorem mkdir_precedes_input_check (w : World)
    (hd : w.downloadResult = Except.ok ()) (hi : w.inputExists = false) :
    (main w).events[3]? = some (Event.mkdir output_dir true true) ∧
    (main w).events[6]? = some (Event.checkInput sample_pdf_path) ∧
    Event.mkdir output_dir true true ∈ (main w).events ∧
    (∀ ps, Event.parseAndExport ps ∉ (main w).events) ∧
    Event.print ("Error: Sample PDF file not found at " ++ sample_pdf_path) ∈
      (main w).events := by
  refine ⟨?_, ?_, ?_, ?_, ?_⟩
  · rcases hpl : w.parentListing <;> simp [main, hd, hi, hpl]
  · rcases hpl : w.parentListing <;> simp [main, hd, hi, hpl]
  · rcases hpl : w.parentListing <;> simp [main, hd, hi, hpl]
  · intro ps; rcases hpl : w.parentListing <;> simp [main, hd, hi, hpl]
  · rcases hpl : w.parentListing <;> simp [main, hd, hi, hpl]

/-- Witness world for C9: models ready, input missing, parent directory
absent. -/
def wMissingInputNoParent : World :=
  ⟨Except.ok (), false, "/repo/in.pdf", none, Except.ok (), false,
   ReadOutcome.decodeError, "/repo/out.json", false, []⟩

/-- Witness for C9 at `wMissingInputNoParent`. -/
theorem mkdir_precedes_input_check_witness :
    wMissingInputNoParent.downloadResult = Except.ok () ∧
    wMissingInputNoParent.inputExists = false ∧
    (main wMissingInputNoParent).events[3]? = some (Event.mkdir output_dir true true) ∧
    (main wMissingInputNoParent).events[6]? = some (Event.checkInput sample_pdf_path) :=
  ⟨rfl, rfl, (mkdir_precedes_input_check wMissingInputNoParent rfl rfl).1,
   (mkdir_precedes_input_check wMissingInputNoParent rfl rfl).2.1⟩

/-- C10: any exception from opening or reading the output JSON other than a
decode error, and likewise any exception raised inside the snippet-printing
block, is caught by the generic handler: the generic error message naming
the exception is printed and `main` returns normally. -/
theorem generic_read_errors_swallowed (w : World)
    (hd : w.downloadResult = Except.ok ()) (hi : w.inputExists = true)
    (hp : w.parseResult = Except.ok ()) (ho : w.outputExists = true) :
    (∀ e, w.readOutcome = ReadOutcome.otherError e →
      Event.print ("An error occurred while reading or printing the JSON output: " ++ e) ∈
        (main w).events ∧ (main w).raised = none) ∧
    (∀ j evs ex, w.readOutcome = ReadOutcome.ok j → snippetRun j = (evs, some ex) →
      Event.print ("An error occurred while reading or printing the JSON output: " ++ ex) ∈
        (main w).events ∧ (main w).raised = none) := by
  constructor
  · intro e hr
    exact ⟨by simp [main, hd, hi, hp, ho, hr], main_returns_normally w⟩
  · intro j evs ex hr hsnip
    exact ⟨by simp [main, hd, hi, hp, ho, hr, hsnip], main_returns_normally w⟩

/-- Witness world for C10: opening the output file raises an `OSError`. -/
def wReadError : World :=
  ⟨Except.ok (), true, "/repo/in.pdf", some [], Except.ok (), true,
   ReadOutcome.otherError "[Errno 13] Permission denied", "/repo/out.json", true, []⟩

/-- Witness for C10 at `wReadError`. -/
theorem generic_read_errors_swallowed_witness :
    wReadError.readOutcome = ReadOutcome.otherError "[Errno 13] Permission denied" ∧
    Event.print ("An error occurred while reading or printing the JSON output: " ++
      "[Errno 13] Permission denied") ∈ (main wReadError).events ∧
    (main wReadError).raised = none :=
  ⟨rfl,
   ((generic_read_errors_swallowed wReadError rfl rfl rfl rfl).1
      "[Errno 13] Permission denied" rfl).1,
   ((generic_read_errors_swallowed wReadError rfl rfl rfl rfl).1
      "[Errno 13] Permission denied" rfl).2⟩

end Demo01
